import Mathlib

/-
Verification development for the Vulkan triangle renderer
(src/source/vulkan_triangle.cpp). The C++ program is shallowly embedded:
each relevant routine of TriangleApplication becomes a Lean function over
explicit state, with platform results (acquired image indices, VkResult
values of queue submission and presentation) supplied as oracle inputs.
Blocking calls and queue operations are recorded as an event trace so that
ordering properties of the per-frame protocol can be stated.
-/

namespace VulkanTriangle

/-- MAX_FRAMES_IN_FLIGHT from vulkan_triangle.cpp line 19. -/
def MAX_FRAMES_IN_FLIGHT : Nat := 2

/-- Modulus of the C type uint32_t. -/
def UINT32_MOD : Nat := 2 ^ 32

/-- VkResult values, reduced to the distinction the program makes
(VK_SUCCESS versus everything else) plus sample error codes. -/
inductive VkResult where
  | success
  | errorDeviceLost
  | errorOutOfDateKHR
deriving DecidableEq, Repr

/- ------------------------------------------------------------------ -/
/- Swapchain image-count negotiation (CreateSwapchain, lines 1074-1079) -/
/- ------------------------------------------------------------------ -/

/-- Embeds lines 1074-1079 of CreateSwapchain:
uint32_t imageCount = minImageCount + 1 (uint32 arithmetic), then
if (maxImageCount > 0 and imageCount > maxImageCount) imageCount = maxImageCount. -/
def chooseSwapImageCount (minImageCount maxImageCount : Nat) : Nat :=
  let imageCount := (minImageCount + 1) % UINT32_MOD
  if maxImageCount > 0 && imageCount > maxImageCount then maxImageCount else imageCount

/- ------------------------------------------------------------------ -/
/- Render pass creation (CreateRenderPass, lines 308-395)              -/
/- ------------------------------------------------------------------ -/

/-- VK_PIPELINE_STAGE_COLOR_ATTACHMENT_OUTPUT_BIT = 0x00000400. -/
def PIPELINE_STAGE_COLOR_ATTACHMENT_OUTPUT : Nat := 1024

/-- VK_ACCESS_COLOR_ATTACHMENT_WRITE_BIT = 0x00000100. -/
def ACCESS_COLOR_ATTACHMENT_WRITE : Nat := 256

/-- A subpass reference in a VkSubpassDependency: VK_SUBPASS_EXTERNAL or
an index into the subpass array. -/
inductive SubpassRef where
  | external
  | subpassIndex (i : Nat)
deriving DecidableEq, Repr

/-- The fields of VkSubpassDependency that CreateRenderPass writes. -/
structure SubpassDependency where
  srcSubpass : SubpassRef
  dstSubpass : SubpassRef
  srcStageMask : Nat
  srcAccessMask : Nat
  dstStageMask : Nat
  dstAccessMask : Nat
deriving DecidableEq, Repr

/-- The fields of VkRenderPassCreateInfo that CreateRenderPass touches.
Zero-initialization of the C struct corresponds to dependencyCount = 0 and
an empty dependency list. -/
structure RenderPassCreateInfo where
  attachmentCount : Nat
  subpassCount : Nat
  dependencyCount : Nat
  pDependencies : List SubpassDependency
deriving DecidableEq, Repr

/-- Result of running CreateRenderPass: the create-info snapshot that
vkCreateRenderPass (line 369) actually reads, and the final value of the
local variable after the trailing writes of lines 379-394. -/
structure RenderPassResult where
  infoAtCreateCall : RenderPassCreateInfo
  infoFinal : RenderPassCreateInfo
deriving DecidableEq, Repr

/-- Embeds CreateRenderPass (lines 308-395). The local renderPassInfo is
value-initialized, its attachment and subpass fields are set, and
vkCreateRenderPass is called on that snapshot (line 369); only afterwards
are the VkSubpassDependency and the dependencyCount and pDependencies
fields written (lines 379-394). -/
def CreateRenderPass : RenderPassResult :=
  let renderPassInfo : RenderPassCreateInfo :=
    { attachmentCount := 1, subpassCount := 1, dependencyCount := 0, pDependencies := [] }
  let snapshotAtCall := renderPassInfo
  let dependency : SubpassDependency :=
    { srcSubpass := SubpassRef.external
      dstSubpass := SubpassRef.subpassIndex 0
      srcStageMask := PIPELINE_STAGE_COLOR_ATTACHMENT_OUTPUT
      srcAccessMask := 0
      dstStageMask := PIPELINE_STAGE_COLOR_ATTACHMENT_OUTPUT
      dstAccessMask := ACCESS_COLOR_ATTACHMENT_WRITE }
  let infoAfter :=
    { renderPassInfo with dependencyCount := 1, pDependencies := [dependency] }
  { infoAtCreateCall := snapshotAtCall, infoFinal := infoAfter }

/- ------------------------------------------------------------------ -/
/- Theorems for claims C6 and C9                                       -/
/- ------------------------------------------------------------------ -/

/-- Claim C6: for every surface capability pair, the negotiated swapchain
image count equals surfaceMinImages + 1 clamped down to surfaceMaxImages
when the maximum is nonzero (zero meaning unbounded); concretely
(min 2, max 4) yields 3 and (min 3, max 3) yields 3. Stated below the
uint32 overflow bound, where the machine addition is the plain one. -/
theorem chooseSwapImageCount_spec (mn mx : Nat) (hmn : mn + 1 < UINT32_MOD) :
    (chooseSwapImageCount mn mx = if mx = 0 then mn + 1 else min (mn + 1) mx) ∧
    chooseSwapImageCount 2 4 = 3 ∧ chooseSwapImageCount 3 3 = 3 := by
  refine ⟨?_, by decide, by decide⟩
  unfold chooseSwapImageCount
  rw [Nat.mod_eq_of_lt hmn]
  simp only [Bool.and_eq_true, decide_eq_true_eq, gt_iff_lt]
  split_ifs <;> omega

/-- Witness for chooseSwapImageCount_spec at the concrete pair (2, 4). -/
theorem chooseSwapImageCount_spec_witness :
    2 + 1 < UINT32_MOD ∧
    ((chooseSwapImageCount 2 4 = if 4 = 0 then 2 + 1 else min (2 + 1) 4) ∧
      chooseSwapImageCount 2 4 = 3 ∧ chooseSwapImageCount 3 3 = 3) :=
  ⟨by decide, chooseSwapImageCount_spec 2 4 (by decide)⟩

/-- Claim C9: the render pass is created from a create-info whose
dependencyCount is 0; the external-to-subpass-0 color-attachment-output
dependency is written into the structure only after vkCreateRenderPass
has returned, so the final value of the local carries it while the
created render pass does not. -/
theorem createRenderPass_dependency_written_after_create :
    CreateRenderPass.infoAtCreateCall.dependencyCount = 0 ∧
    CreateRenderPass.infoAtCreateCall.pDependencies = [] ∧
    CreateRenderPass.infoFinal.dependencyCount = 1 ∧
    CreateRenderPass.infoFinal.pDependencies =
      [{ srcSubpass := SubpassRef.external
         dstSubpass := SubpassRef.subpassIndex 0
         srcStageMask := PIPELINE_STAGE_COLOR_ATTACHMENT_OUTPUT
         srcAccessMask := 0
         dstStageMask := PIPELINE_STAGE_COLOR_ATTACHMENT_OUTPUT
         dstAccessMask := ACCESS_COLOR_ATTACHMENT_WRITE }] := by
  refine ⟨rfl, rfl, rfl, rfl⟩

/- ------------------------------------------------------------------ -/
/- The frame loop (DrawFrame, lines 236-305; MainLoop, lines 153-165)  -/
/- ------------------------------------------------------------------ -/

/-- Observable calls the CPU thread makes during the frame loop. Fences
are identified by the frame-slot index that owns them, since
inFlightFences[i] is the fence of slot i. -/
inductive Ev where
  | waitFence (slot : Nat)
  | acquire (image : Nat)
  | waitImageFence (slot : Nat)
  | bindImage (image slot : Nat)
  | resetFence (slot : Nat)
  | submit (image : Nat)
  | present (image : Nat)
  | queueWaitIdle
  | deviceWaitIdle
deriving DecidableEq, Repr

/-- True for the calls that block the CPU thread: vkWaitForFences (steps 1
and 3), vkQueueWaitIdle and vkDeviceWaitIdle. -/
def isBlockingEv : Ev → Bool
  | Ev.waitFence _ => true
  | Ev.waitImageFence _ => true
  | Ev.queueWaitIdle => true
  | Ev.deviceWaitIdle => true
  | _ => false

/-- The mutable per-frame state of TriangleApplication: currentFrame
(line 1479) and imagesInFlight (line 1476). An entry some s in
imagesInFlight models the handle inFlightFences[s]; none models
VK_NULL_HANDLE. -/
structure DrawState where
  currentFrame : Nat
  imagesInFlight : List (Option Nat)
deriving DecidableEq, Repr

/-- The fence currently bound to an image index, i.e. the value of
imagesInFlight[imageIndex] read at line 249. -/
def boundFence (s : DrawState) (imageIndex : Nat) : Option Nat :=
  (s.imagesInFlight.get? imageIndex).join

/-- The effects of one DrawFrame call: the state left behind, the calls
issued in order, and the exception propagating out of the call, if any. -/
structure FrameOutcome where
  state : DrawState
  events : List Ev
  thrown : Option String
deriving DecidableEq, Repr

/-- Embeds DrawFrame (lines 236-305). The acquired image index and the
VkResult values returned by vkQueueSubmit and vkQueuePresentKHR are oracle
inputs. Faithful points: the step-3 wait happens only when
imagesInFlight[imageIndex] is not VK_NULL_HANDLE; the binding is
overwritten with the current slot's fence before the fence reset and the
submission; a failed submission throws after those writes, skipping the
present, the vkQueueWaitIdle of line 302 and the cursor advance; the
result of vkQueuePresentKHR is ignored by the code, so presentResult does
not influence the outcome. -/
def drawFrame (s : DrawState) (imageIndex : Nat)
    (submitResult presentResult : VkResult) : FrameOutcome :=
  let cur := s.currentFrame
  let stepThreeEvents : List Ev :=
    match boundFence s imageIndex with
    | some f => [Ev.waitImageFence f]
    | none => []
  let inFlight := s.imagesInFlight.set imageIndex (some cur)
  let preSubmit : List Ev :=
    Ev.waitFence cur :: Ev.acquire imageIndex :: stepThreeEvents ++
      [Ev.bindImage imageIndex cur, Ev.resetFence cur, Ev.submit imageIndex]
  if submitResult = VkResult.success then
    { state := { currentFrame := (cur + 1) % MAX_FRAMES_IN_FLIGHT, imagesInFlight := inFlight }
      events := preSubmit ++ [Ev.present imageIndex, Ev.queueWaitIdle]
      thrown := none }
  else
    { state := { currentFrame := cur, imagesInFlight := inFlight }
      events := preSubmit
      thrown := some "Failed to submit draw command buffer" }

/-- One loop iteration's oracle inputs: the image index returned by
vkAcquireNextImageKHR and the VkResult values of submission and
presentation. -/
structure LoopInput where
  imageIndex : Nat
  submitResult : VkResult
  presentResult : VkResult
deriving DecidableEq, Repr

/-- Embeds MainLoop (lines 153-165) driving DrawFrame once per entry of
the input list (the list length is the number of iterations before the
window-close signal is observed). On normal exit vkDeviceWaitIdle runs
(line 164); a DrawFrame exception propagates immediately, skipping it. -/
def runLoop : DrawState → List LoopInput → FrameOutcome
  | s, [] => { state := s, events := [Ev.deviceWaitIdle], thrown := none }
  | s, step :: rest =>
    let o := drawFrame s step.imageIndex step.submitResult step.presentResult
    match o.thrown with
    | some msg => { state := o.state, events := o.events, thrown := some msg }
    | none =>
      let r := runLoop o.state rest
      { state := r.state, events := o.events ++ r.events, thrown := r.thrown }

/-- The per-iteration view of a loop run: for each executed iteration, the
state at its start, its oracle inputs, and the events it issued. An
iteration whose submission throws is the last one. -/
def loopIterations : DrawState → List LoopInput → List (DrawState × LoopInput × List Ev)
  | _, [] => []
  | s, step :: rest =>
    let o := drawFrame s step.imageIndex step.submitResult step.presentResult
    (s, step, o.events) ::
      (if o.thrown = none then loopIterations o.state rest else [])

/-- All states the loop passes through, starting with the initial one. -/
def loopStates : DrawState → List LoopInput → List DrawState
  | s, [] => [s]
  | s, step :: rest =>
    let o := drawFrame s step.imageIndex step.submitResult step.presentResult
    s :: (if o.thrown = none then loopStates o.state rest else [o.state])

/-- Exit code of main (lines 1482-1495): EXIT_FAILURE when an exception
propagates out of Run, EXIT_SUCCESS otherwise. -/
def mainExitCode (s : DrawState) (steps : List LoopInput) : Nat :=
  match (runLoop s steps).thrown with
  | some _ => 1
  | none => 0

/-- The imagesInFlight vector right after CreateSyncObjects (line 215):
one VK_NULL_HANDLE entry per swapchain image. -/
def initialImagesInFlight (n : Nat) : List (Option Nat) :=
  List.replicate n none

/-- A loop input whose submission and presentation both succeed. -/
def okStep (image : Nat) : LoopInput :=
  { imageIndex := image, submitResult := VkResult.success, presentResult := VkResult.success }

/-- Initial loop state with a 3-image swapchain and the cursor at 0, used
by the concrete scenarios below. -/
def scenarioStart : DrawState :=
  { currentFrame := 0, imagesInFlight := initialImagesInFlight 3 }

/-- The acquired-index feed of the end-to-end scenario of the spec. -/
def scenarioInputs : List LoopInput :=
  [okStep 0, okStep 1, okStep 2, okStep 0, okStep 1]

/-- Claim C7: running 5 iterations with K = 2, cursor starting at 0
(taking values 0,1,0,1,0), a 3-image swapchain and acquired indices
[0,1,2,0,1] leaves imagesInFlight = [slot 1's fence, slot 0's fence,
slot 0's fence]. -/
theorem scenario_imageFenceBinding_after_five_frames :
    (runLoop scenarioStart scenarioInputs).state.imagesInFlight =
      [some 1, some 0, some 0] ∧
    (loopIterations scenarioStart scenarioInputs).map (fun e => e.1.currentFrame) =
      [0, 1, 0, 1, 0] := by
  decide

/-- Claim C5 counterexample: DrawFrame issues a blocking vkQueueWaitIdle
on the presentation queue right after the present call in every
successful iteration (line 302), so the fence waits and the final device
idle-wait are not the only CPU-blocking suspension points. -/
theorem queueWaitIdle_blocks_after_every_present :
    (drawFrame scenarioStart 0 VkResult.success VkResult.success).events.get? 5 =
      some (Ev.present 0) ∧
    (drawFrame scenarioStart 0 VkResult.success VkResult.success).events.get? 6 =
      some Ev.queueWaitIdle ∧
    isBlockingEv Ev.queueWaitIdle = true ∧
    Ev.queueWaitIdle ≠ Ev.deviceWaitIdle := by
  decide

/-- Claim C5 amended: the CPU-blocking calls of a successful iteration are
exactly the step-1 fence wait, the conditional step-3 fence wait, and a
per-frame vkQueueWaitIdle on the presentation queue after the present
call; an empty loop run blocks only on the final vkDeviceWaitIdle. -/
theorem drawFrame_blocking_calls (s : DrawState) (img : Nat) (pres : VkResult) :
    ((drawFrame s img VkResult.success pres).events.filter isBlockingEv) =
      Ev.waitFence s.currentFrame ::
        ((match boundFence s img with
          | some f => [Ev.waitImageFence f]
          | none => []) ++ [Ev.queueWaitIdle]) ∧
    (runLoop s []).events.filter isBlockingEv = [Ev.deviceWaitIdle] := by
  refine ⟨?_, rfl⟩
  cases h : boundFence s img <;>
    simp [drawFrame, h, isBlockingEv]

/-- Claim C3 counterexample: an iteration whose presentation request is
rejected (vkQueuePresentKHR result VK_ERROR_OUT_OF_DATE_KHR) does not
abort the render loop: no exception propagates and the loop reaches the
normal shutdown idle-wait, because the code ignores the return value of
vkQueuePresentKHR (line 300). -/
theorem present_rejection_not_fatal :
    (runLoop scenarioStart
      [{ imageIndex := 0, submitResult := VkResult.success
         presentResult := VkResult.errorOutOfDateKHR }]).thrown = none ∧
    Ev.deviceWaitIdle ∈ (runLoop scenarioStart
      [{ imageIndex := 0, submitResult := VkResult.success
         presentResult := VkResult.errorOutOfDateKHR }]).events ∧
    mainExitCode scenarioStart
      [{ imageIndex := 0, submitResult := VkResult.success
         presentResult := VkResult.errorOutOfDateKHR }] = 0 := by
  decide

/-- Claim C3 amended: a rejected queue submission aborts the render loop
with the reported error and the process exits with failure status, while
the presentation result is ignored: a loop iteration whose submission
succeeds continues regardless of the presentation result. -/
theorem submit_rejection_aborts_loop (s : DrawState) (img : Nat)
    (sub pres : VkResult) (rest : List LoopInput) :
    (sub ≠ VkResult.success →
      (runLoop s ({ imageIndex := img, submitResult := sub, presentResult := pres } :: rest)).thrown
          = some "Failed to submit draw command buffer" ∧
        mainExitCode s ({ imageIndex := img, submitResult := sub, presentResult := pres } :: rest) = 1) ∧
    (runLoop s ({ imageIndex := img, submitResult := VkResult.success, presentResult := pres } :: rest)).thrown
        = (runLoop (drawFrame s img VkResult.success pres).state rest).thrown := by
  refine ⟨fun h => ?_, ?_⟩
  · constructor <;> simp [runLoop, mainExitCode, drawFrame, h]
  · simp [runLoop, drawFrame]

/-- Witness for submit_rejection_aborts_loop: a concrete rejected
submission ends the run with the reported error and failure exit code. -/
theorem submit_rejection_aborts_loop_witness :
    (runLoop scenarioStart
        [{ imageIndex := 0, submitResult := VkResult.errorDeviceLost
           presentResult := VkResult.success }]).thrown
        = some "Failed to submit draw command buffer" ∧
      mainExitCode scenarioStart
        [{ imageIndex := 0, submitResult := VkResult.errorDeviceLost
           presentResult := VkResult.success }] = 1 :=
  (submit_rejection_aborts_loop scenarioStart 0 VkResult.errorDeviceLost
    VkResult.success []).1 (by decide)

/- ------------------------------------------------------------------ -/
/- Claims C1 and C10: ordering and persistence of ImageFenceBinding    -/
/- ------------------------------------------------------------------ -/

/-- In one DrawFrame call with a non-none binding for the acquired image,
the step-3 fence wait appears strictly before the submission in the event
order, whatever the submission and presentation results are. -/
theorem drawFrame_wait_position (s : DrawState) (img : Nat)
    (sub pres : VkResult) (f : Nat) (h : boundFence s img = some f) :
    (drawFrame s img sub pres).events.get? 2 = some (Ev.waitImageFence f) ∧
    (drawFrame s img sub pres).events.get? 5 = some (Ev.submit img) := by
  cases sub <;> simp [drawFrame, h]

/-- Every entry of loopIterations holds the events of the DrawFrame call
made from its recorded start state and inputs. -/
theorem loopIterations_events (s0 : DrawState) (steps : List LoopInput) :
    ∀ e ∈ loopIterations s0 steps,
      e.2.2 = (drawFrame e.1 e.2.1.imageIndex e.2.1.submitResult e.2.1.presentResult).events := by
  induction steps generalizing s0 with
  | nil => intro e he; simp [loopIterations] at he
  | cons step rest ih =>
    intro e he
    simp only [loopIterations] at he
    rcases List.mem_cons.mp he with rfl | hmem
    · rfl
    · split at hmem
      · exact ih _ e hmem
      · simp at hmem

/-- Claim C1: for every run of the frame loop, in every iteration that
acquires an image index whose ImageFenceBinding is non-none at the start
of the iteration, the wait on that bound fence occurs strictly before the
vkQueueSubmit for that image. -/
theorem step3_wait_precedes_submission (s0 : DrawState) (steps : List LoopInput)
    (s : DrawState) (st : LoopInput) (evs : List Ev) (f : Nat)
    (hmem : (s, st, evs) ∈ loopIterations s0 steps)
    (hbound : boundFence s st.imageIndex = some f) :
    ∃ i j, i < j ∧ evs.get? i = some (Ev.waitImageFence f) ∧
      evs.get? j = some (Ev.submit st.imageIndex) := by
  have hevs := loopIterations_events s0 steps (s, st, evs) hmem
  dsimp only at hevs
  have hpos := drawFrame_wait_position s st.imageIndex st.submitResult st.presentResult f hbound
  exact ⟨2, 5, by omega, by rw [hevs]; exact hpos.1, by rw [hevs]; exact hpos.2⟩

/-- Witness for step3_wait_precedes_submission: a concrete two-iteration
run that re-acquires image 0, whose binding is then non-none. -/
theorem step3_wait_precedes_submission_witness :
    ((({ currentFrame := 1, imagesInFlight := [some 0, none, none] } : DrawState),
        okStep 0,
        (drawFrame { currentFrame := 1, imagesInFlight := [some 0, none, none] } 0
          VkResult.success VkResult.success).events) ∈
      loopIterations { currentFrame := 1, imagesInFlight := [some 0, none, none] } [okStep 0]) ∧
    boundFence { currentFrame := 1, imagesInFlight := [some 0, none, none] } (okStep 0).imageIndex
      = some 0 ∧
    ∃ i j, i < j ∧
      ((drawFrame { currentFrame := 1, imagesInFlight := [some 0, none, none] } 0
          VkResult.success VkResult.success).events).get? i = some (Ev.waitImageFence 0) ∧
      ((drawFrame { currentFrame := 1, imagesInFlight := [some 0, none, none] } 0
          VkResult.success VkResult.success).events).get? j = some (Ev.submit (okStep 0).imageIndex) :=
  ⟨by decide, by decide,
    step3_wait_precedes_submission
      { currentFrame := 1, imagesInFlight := [some 0, none, none] } [okStep 0]
      { currentFrame := 1, imagesInFlight := [some 0, none, none] } (okStep 0)
      (drawFrame { currentFrame := 1, imagesInFlight := [some 0, none, none] } 0
        VkResult.success VkResult.success).events 0
      (by decide) (by decide)⟩

/-- One DrawFrame call never clears a non-none ImageFenceBinding entry:
it only overwrites the entry of the acquired image with the current
slot's fence. -/
theorem boundFence_isSome_after_drawFrame (s : DrawState) (acq img : Nat)
    (sub pres : VkResult) (h : (boundFence s img).isSome = true) :
    (boundFence (drawFrame s acq sub pres).state img).isSome = true := by
  have hstate : (drawFrame s acq sub pres).state.imagesInFlight
      = s.imagesInFlight.set acq (some s.currentFrame) := by
    cases sub <;> simp [drawFrame]
  unfold boundFence at h ⊢
  rw [hstate]
  by_cases hacq : acq = img
  · subst hacq
    rw [List.get?_set_eq]
    cases hg : s.imagesInFlight.get? acq with
    | none => rw [hg] at h; simp at h
    | some v => simp
  · rw [List.get?_set_ne _ s.imagesInFlight hacq]
    exact h

/-- Claim C10: once ImageFenceBinding[img] is non-none, it stays non-none
in every later state of any run of the frame loop: the code never writes
VK_NULL_HANDLE back, it only overwrites a binding with the fence of the
slot acquiring the image. -/
theorem binding_never_cleared (s : DrawState) (steps : List LoopInput) (img : Nat)
    (h : (boundFence s img).isSome = true) :
    ∀ t ∈ loopStates s steps, (boundFence t img).isSome = true := by
  induction steps generalizing s with
  | nil =>
    intro t ht
    simp only [loopStates, List.mem_singleton] at ht
    exact ht ▸ h
  | cons step rest ih =>
    intro t ht
    simp only [loopStates] at ht
    have hnext := boundFence_isSome_after_drawFrame s step.imageIndex img
      step.submitResult step.presentResult h
    rcases List.mem_cons.mp ht with rfl | hmem
    · exact h
    · split at hmem
      · exact ih _ hnext t hmem
      · simp only [List.mem_singleton] at hmem
        exact hmem ▸ hnext

/-- Witness for binding_never_cleared: image 0 is bound in a concrete
start state and stays bound across a concrete two-iteration run. -/
theorem binding_never_cleared_witness :
    ((boundFence { currentFrame := 1, imagesInFlight := [some 0, none, none] } 0).isSome = true) ∧
    ∀ t ∈ loopStates { currentFrame := 1, imagesInFlight := [some 0, none, none] }
        [okStep 1, okStep 2], (boundFence t 0).isSome = true :=
  ⟨by decide,
    binding_never_cleared { currentFrame := 1, imagesInFlight := [some 0, none, none] }
      [okStep 1, okStep 2] 0 (by decide)⟩

/- ------------------------------------------------------------------ -/
/- Queue family search (FindQueueFamilies, lines 1289-1333)            -/
/- ------------------------------------------------------------------ -/

/-- What the scan reads of one VkQueueFamilyProperties entry: whether the
capability mask includes VK_QUEUE_GRAPHICS_BIT, and the result of
vkGetPhysicalDeviceSurfaceSupportKHR for this family index. -/
structure QueueFamilyProperties where
  supportsGraphics : Bool
  presentSupport : Bool
deriving DecidableEq, Repr

/-- The QueueFamilyIndices struct of lines 1186-1194. -/
structure QueueFamilyIndices where
  graphicsFamily : Option Nat
  presentFamily : Option Nat
deriving DecidableEq, Repr

/-- IsValid of line 1193: both optionals hold a value. -/
def QueueFamilyIndices.IsValid (q : QueueFamilyIndices) : Bool :=
  q.graphicsFamily.isSome && q.presentFamily.isSome

/-- The loop body of FindQueueFamilies (lines 1312-1330): at family i, the
graphics index is assigned (unconditionally overwriting any earlier value)
whenever the graphics bit is set, the present index likewise whenever the
family can present, and the loop breaks once IsValid holds. -/
def findQueueFamiliesGo : QueueFamilyIndices → Nat → List QueueFamilyProperties → QueueFamilyIndices
  | ind, _, [] => ind
  | ind, i, qf :: rest =>
    let ind1 := if qf.supportsGraphics then { ind with graphicsFamily := some i } else ind
    let ind2 := if qf.presentSupport then { ind1 with presentFamily := some i } else ind1
    if ind2.IsValid then ind2 else findQueueFamiliesGo ind2 (i + 1) rest

/-- Embeds FindQueueFamilies (lines 1289-1333) on the family table of a
device. -/
def FindQueueFamilies (families : List QueueFamilyProperties) : QueueFamilyIndices :=
  findQueueFamiliesGo { graphicsFamily := none, presentFamily := none } 0 families

/-- A family table on which the recorded graphics index is not the first
graphics-capable one: family 0 supports graphics only, family 1 supports
graphics only, family 2 supports present only. -/
def overwriteFamilies : List QueueFamilyProperties :=
  [{ supportsGraphics := true, presentSupport := false },
   { supportsGraphics := true, presentSupport := false },
   { supportsGraphics := false, presentSupport := true }]

/-- Claim C2 counterexample: on overwriteFamilies the scan records
graphics index 1 although family 0 (scanned earlier, before both indices
were found) already supported graphics: the later graphics-capable family
replaced it. -/
theorem findQueueFamilies_not_first_fit :
    FindQueueFamilies overwriteFamilies
      = { graphicsFamily := some 1, presentFamily := some 2 } ∧
    (overwriteFamilies.get? 0).map (fun qf => qf.supportsGraphics) = some true := by
  decide

/-- Reference formulation of the amended claim, written from its words:
walk the indexed family list left to right; at each family overwrite the
graphics record if it is graphics-capable and the present record if it can
present; stop as soon as both records are set. -/
def lastFitStep (acc : QueueFamilyIndices × Bool) (ip : Nat × QueueFamilyProperties) :
    QueueFamilyIndices × Bool :=
  if acc.2 then acc
  else
    let next : QueueFamilyIndices :=
      { graphicsFamily := if ip.2.supportsGraphics then some ip.1 else acc.1.graphicsFamily
        presentFamily := if ip.2.presentSupport then some ip.1 else acc.1.presentFamily }
    (next, next.IsValid)

/-- The amended queue-family search as a fold over the indexed table. -/
def lastFitQueueSearch (families : List QueueFamilyProperties) : QueueFamilyIndices :=
  (families.enum.foldl lastFitStep ({ graphicsFamily := none, presentFamily := none }, false)).1

/-- Once the stop flag is set, the fold ignores the remaining families. -/
theorem lastFitStep_stopped (l : List (Nat × QueueFamilyProperties)) (acc : QueueFamilyIndices) :
    l.foldl lastFitStep (acc, true) = (acc, true) := by
  induction l with
  | nil => rfl
  | cons x xs ih => simpa [lastFitStep] using ih

/-- The loop of FindQueueFamilies agrees with the overwrite-and-break fold
from any intermediate accumulator and start index. -/
theorem findQueueFamiliesGo_eq_fold (fams : List QueueFamilyProperties) :
    ∀ ind i, findQueueFamiliesGo ind i fams
      = ((List.enumFrom i fams).foldl lastFitStep (ind, false)).1 := by
  induction fams with
  | nil => intro ind i; rfl
  | cons qf rest ih =>
    intro ind i
    have hmatch : (if qf.presentSupport
          then { (if qf.supportsGraphics then { ind with graphicsFamily := some i } else ind) with
                 presentFamily := some i }
          else (if qf.supportsGraphics then { ind with graphicsFamily := some i } else ind))
        = ({ graphicsFamily := if qf.supportsGraphics then some i else ind.graphicsFamily
             presentFamily := if qf.presentSupport then some i else ind.presentFamily } :
            QueueFamilyIndices) := by
      cases qf.supportsGraphics <;> cases qf.presentSupport <;> rfl
    simp only [findQueueFamiliesGo, List.enumFrom, List.foldl]
    rw [hmatch]
    cases hv : ({ graphicsFamily := if qf.supportsGraphics then some i else ind.graphicsFamily
                  presentFamily := if qf.presentSupport then some i else ind.presentFamily } :
                QueueFamilyIndices).IsValid <;>
      simp only [show lastFitStep (ind, false) (i, qf)
          = ({ graphicsFamily := if qf.supportsGraphics then some i else ind.graphicsFamily
               presentFamily := if qf.presentSupport then some i else ind.presentFamily },
             ({ graphicsFamily := if qf.supportsGraphics then some i else ind.graphicsFamily
                presentFamily := if qf.presentSupport then some i else ind.presentFamily } :
              QueueFamilyIndices).IsValid) from rfl, hv, if_false, if_true,
        Bool.false_eq_true, lastFitStep_stopped, ih]

/-- Claim C2 amended: the scan assigns graphicsFamilyIndex at every
graphics-capable family and presentFamilyIndex at every present-capable
family it visits, overwriting earlier records, and stops as soon as both
are set; so each records the last qualifying index seen before the stop,
not the first. -/
theorem findQueueFamilies_is_overwrite_scan (families : List QueueFamilyProperties) :
    FindQueueFamilies families = lastFitQueueSearch families :=
  findQueueFamiliesGo_eq_fold families { graphicsFamily := none, presentFamily := none } 0

/- ------------------------------------------------------------------ -/
/- Instance support checks (lines 837-853, 885-914, 917-940)           -/
/- ------------------------------------------------------------------ -/

/-- Embeds CheckVulkanExtensions (lines 885-914). The inner loop sets
found when strcmp(vulkanExt.extensionName, extList[i]) is nonzero, i.e.
when the two names DIFFER; the Lean term reproduces that test verbatim. -/
def CheckVulkanExtensions (vulkanExtList extList : List String) : Bool :=
  extList.all fun required => vulkanExtList.any fun vulkanExt => vulkanExt != required

/-- Embeds CheckVulkanValidationLayerSupport (lines 917-940), with the
same strcmp-as-boolean test as CheckVulkanExtensions. -/
def CheckVulkanValidationLayerSupport (vulkanLayerList layerList : List String) : Bool :=
  layerList.all fun layerName => vulkanLayerList.any fun vulkanLayer => vulkanLayer != layerName

/-- Embeds the checks and throws of CreateInstance (lines 837-853): the
extension check throws first, then the layer check, then vkCreateInstance
itself can fail. -/
def CreateInstance (vulkanExtList extList vulkanLayerList layerList : List String)
    (createResult : VkResult) : Except String Unit :=
  if !CheckVulkanExtensions vulkanExtList extList then
    Except.error "Some GLFW extensions are not supported by Vulkan"
  else if !CheckVulkanValidationLayerSupport vulkanLayerList layerList then
    Except.error "Some validation layers are not available to Vulkan"
  else if createResult != VkResult.success then
    Except.error "Failed to create instance"
  else
    Except.ok ()

/-- Claim C4: evaluation of the support checks at inputs where the claimed
membership semantics and the code disagree. An advertised list equal to
the required list is reported unsupported, while an advertised list that
misses the required name but holds a differently named extension is
reported supported; CreateInstance therefore throws the extension error
on a platform that advertises exactly the required extension. -/
theorem checkVulkanExtensions_inverted_comparison :
    CheckVulkanExtensions ["VK_KHR_surface"] ["VK_KHR_surface"] = false ∧
    CheckVulkanExtensions ["VK_KHR_wayland_surface"] ["VK_KHR_surface"] = true ∧
    CheckVulkanValidationLayerSupport ["VK_LAYER_KHRONOS_validation"]
      ["VK_LAYER_KHRONOS_validation"] = false ∧
    CreateInstance ["VK_KHR_surface"] ["VK_KHR_surface"]
      ["VK_LAYER_KHRONOS_validation"] ["VK_LAYER_KHRONOS_validation"] VkResult.success
      = Except.error "Some GLFW extensions are not supported by Vulkan" := by
  exact ⟨by decide, by decide, by decide, rfl⟩

/- ------------------------------------------------------------------ -/
/- The frame cursor (line 304 and line 1479)                           -/
/- ------------------------------------------------------------------ -/

/-- The state of the application as main constructs it: the member
size_t currentFrame (line 1479) carries no initializer and
TriangleApplication has no constructor, so default-initialization leaves
it indeterminate; the indeterminate value is the parameter c0. The
imagesInFlight vector is the one CreateSyncObjects builds for a 3-image
swapchain. -/
def defaultInitState (c0 : Nat) : DrawState :=
  { currentFrame := c0, imagesInFlight := initialImagesInFlight 3 }

/-- Claim C8: evaluation at an indeterminate initial cursor value 5: the
first iteration waits on inFlightFences[5], which does not exist (only
indices below MAX_FRAMES_IN_FLIGHT = 2 do), and records slot 5 in the
image binding; the mod-K advance only takes effect from the second
iteration on. -/
theorem uninitialized_cursor_first_frame :
    (drawFrame (defaultInitState 5) 0 VkResult.success VkResult.success).events.get? 0
      = some (Ev.waitFence 5) ∧
    ¬ (5 < MAX_FRAMES_IN_FLIGHT) ∧
    (drawFrame (defaultInitState 5) 0 VkResult.success VkResult.success).state.imagesInFlight
      = [some 5, none, none] ∧
    (drawFrame (defaultInitState 5) 0 VkResult.success VkResult.success).state.currentFrame = 0 := by
  decide

end VulkanTriangle
